import Mathlib

/-
  Verification development for the Amazon Connect / Bedrock agent action-group
  Lambda (src/lambda/python/index.py).

  The embedding models:
  * JSON-like values (`JVal`) for handler bodies and envelope contents;
  * Python dict operations used by the code (lookup, update, merge), where a
    dict is an association list whose update replaces in place or appends;
  * the slice of `datetime` the code uses: `fromisoformat` on strings of the
    form YYYY-MM-DD[*HH:MM[:SS]][(+|-)HH:MM] (the sep character is arbitrary, as
    in Python; fractional seconds and other extended ISO forms are not
    modelled), `isoformat`, `.hour`, `.replace(hour=i)`, and the
    "%Y-%m-%d %H:%M:%S" strftime rendering;
  * the three DynamoDB tables as lists of records.  A missing attribute is an
    absent key; NULL-valued attributes are not modelled.  `put_item` replaces
    the item with the same key (else appends), `delete_item` removes it,
    queries are filters, and string range conditions use code-point order
    (equal to DynamoDB byte order on the ASCII strings involved).
    Passing a Python `None` where boto3 requires a key value is modelled as a
    raised fault (`PyErr.paramError`), as boto3 raises ParamValidationError.
-/

namespace ConnectAgent

/-- JSON-like values exchanged between the handlers and the envelope builder. -/
inductive JVal where
  | null : JVal
  | s (v : String) : JVal
  | n (v : Int) : JVal
  | arr (vs : List JVal) : JVal
  | obj (fields : List (String × JVal)) : JVal

/-- A possibly absent string attribute rendered as a JSON value (Python None
becomes JSON null when placed in a dict literal). -/
def optS : Option String → JVal
  | none => JVal.null
  | some v => JVal.s v

/-- Python dict lookup `d.get(key)` on an association list (first match wins;
the construction below keeps keys unique). -/
def alGet {α : Type} : List (String × α) → String → Option α
  | [], _ => none
  | (k, v) :: rest, key => if k == key then some v else alGet rest key

/-- Python dict write `d[key] = v`: replace the existing entry in place, else
append a new entry. -/
def alUpd {α : Type} (l : List (String × α)) (key : String) (v : α) : List (String × α) :=
  if l.any (fun p => p.1 == key) then l.map (fun p => if p.1 = key then (key, v) else p)
  else l ++ [(key, v)]

/-- Python dict `d.update(adds)` / `{**d, **adds}`: fold the writes left to
right. -/
def alUpdMany {α : Type} (l : List (String × α)) (adds : List (String × α)) : List (String × α) :=
  adds.foldl (fun acc p => alUpd acc p.1 p.2) l

/-- Python `d.get(key)` on a JSON value (only dicts support it). -/
def JVal.get : JVal → String → Option JVal
  | JVal.obj fields, key => alGet fields key
  | _, _ => none

/-- Python truthiness of a JSON value. -/
def isTruthy : JVal → Bool
  | JVal.null => false
  | JVal.s v => !(v == "")
  | JVal.n k => !(k == 0)
  | JVal.arr vs => !vs.isEmpty
  | JVal.obj fs => !fs.isEmpty

/-- The components of a Python `datetime` value as the code observes them.
`tzOffsetMin` is the UTC offset in minutes, `none` for a naive datetime. -/
structure PyDateTime where
  year : Nat
  month : Nat
  day : Nat
  hour : Nat
  minute : Nat
  second : Nat
  tzOffsetMin : Option Int
deriving DecidableEq, Repr

def dChar (k : Nat) : Char := Char.ofNat (48 + k)

def dVal (c : Char) : Nat := c.toNat - 48

def isDig (c : Char) : Bool := 48 ≤ c.toNat && c.toNat ≤ 57

def d2v (a b : Char) : Nat := 10 * dVal a + dVal b

def isLeapYear (y : Nat) : Bool := y % 4 == 0 && (y % 100 != 0 || y % 400 == 0)

def daysInMonth (y m : Nat) : Nat :=
  if m == 2 then (if isLeapYear y then 29 else 28)
  else if m == 4 || m == 6 || m == 9 || m == 11 then 30
  else 31

/-- Parse the optional +HH:MM / -HH:MM suffix; Python rejects offsets whose
hour part exceeds 23 or minute part exceeds 59. -/
def parseTz : List Char → Option (Option Int)
  | [] => some none
  | [sign, h1, h2, ':', m1, m2] =>
    if (sign == '+' || sign == '-') && isDig h1 && isDig h2 && isDig m1 && isDig m2 then
      let hh := d2v h1 h2
      let mm := d2v m1 m2
      if hh ≤ 23 && mm ≤ 59 then
        some (some (if sign == '-' then -((hh * 60 + mm : Nat) : Int) else ((hh * 60 + mm : Nat) : Int)))
      else none
    else none
  | _ => none

/-- Parse the optional :SS seconds part followed by the optional offset;
without a leading colon the whole remainder must be the offset. -/
def parseSec : List Char → Option (Nat × Option Int)
  | ':' :: s1 :: s2 :: rest2 =>
    if isDig s1 && isDig s2 then
      match parseTz rest2 with
      | some tz => some (d2v s1 s2, tz)
      | none => none
    else none
  | other =>
    match parseTz other with
    | some tz => some (0, tz)
    | none => none

/-- Parse the optional time-of-day part: a single separator character (any
character, as in Python), HH:MM, optional :SS, optional offset. -/
def parseTime : List Char → Option (Nat × Nat × Nat × Option Int)
  | [] => some (0, 0, 0, none)
  | _sep :: h1 :: h2 :: ':' :: m1 :: m2 :: rest =>
    if isDig h1 && isDig h2 && isDig m1 && isDig m2 then
      match parseSec rest with
      | some (ss, tz) => some (d2v h1 h2, d2v m1 m2, ss, tz)
      | none => none
    else none
  | _ => none

/-- Models Python `datetime.fromisoformat` on the forms this system exchanges:
YYYY-MM-DD, optionally followed by a separator character and HH:MM[:SS],
optionally followed by a +HH:MM or -HH:MM offset.  Out-of-range components
(month 0, day 31 in April, hour 24, ...) are rejected, as Python raises
ValueError on them. -/
def fromChars : List Char → Option PyDateTime
  | y1 :: y2 :: y3 :: y4 :: '-' :: mo1 :: mo2 :: '-' :: da1 :: da2 :: rest =>
    if isDig y1 && isDig y2 && isDig y3 && isDig y4 && isDig mo1 && isDig mo2
        && isDig da1 && isDig da2 then
      let y := 1000 * dVal y1 + 100 * dVal y2 + 10 * dVal y3 + dVal y4
      let mo := d2v mo1 mo2
      let da := d2v da1 da2
      if 1 ≤ y && 1 ≤ mo && mo ≤ 12 && 1 ≤ da && da ≤ daysInMonth y mo then
        match parseTime rest with
        | some (hh, mi, ss, tz) =>
          if hh ≤ 23 && mi ≤ 59 && ss ≤ 59 then some ⟨y, mo, da, hh, mi, ss, tz⟩ else none
        | none => none
      else none
    else none
  | _ => none

def fromisoformat (s : String) : Option PyDateTime := fromChars s.data

def pad2c (n : Nat) : List Char := [dChar (n / 10 % 10), dChar (n % 10)]

def pad4c (n : Nat) : List Char :=
  [dChar (n / 1000 % 10), dChar (n / 100 % 10), dChar (n / 10 % 10), dChar (n % 10)]

def tzChars : Option Int → List Char
  | none => []
  | some off =>
    (if off < 0 then '-' else '+') :: (pad2c (off.natAbs / 60) ++ ':' :: pad2c (off.natAbs % 60))

def isoChars (dt : PyDateTime) : List Char :=
  pad4c dt.year ++ '-' :: pad2c dt.month ++ '-' :: pad2c dt.day ++
    'T' :: pad2c dt.hour ++ ':' :: pad2c dt.minute ++ ':' :: pad2c dt.second ++
      tzChars dt.tzOffsetMin

/-- Models Python `datetime.isoformat()` (microseconds are zero throughout). -/
def isoformat (dt : PyDateTime) : String := String.mk (isoChars dt)

/-- Models Python `dt.strftime("%Y-%m-%d %H:%M:%S")`. -/
def fmtYmdHms (dt : PyDateTime) : String :=
  String.mk (pad4c dt.year ++ '-' :: pad2c dt.month ++ '-' :: pad2c dt.day ++
    ' ' :: pad2c dt.hour ++ ':' :: pad2c dt.minute ++ ':' :: pad2c dt.second)

/-- Models Python `dt.replace(hour=h)`. -/
def replaceHour (dt : PyDateTime) (h : Nat) : PyDateTime := { dt with hour := h }

/-- Models Python `s.replace("Z", "+00:00")` for the single-character pattern
"Z": every occurrence of the character Z is rewritten to the six characters
+00:00. -/
def replaceZ (s : String) : String :=
  String.mk ((s.data.map (fun c => if c == 'Z' then ['+', '0', '0', ':', '0', '0'] else [c])).flatten)

/-- Faults a handler can raise: attribute access on None, ValueError from
datetime parsing, KeyError from dict indexing, and boto3 parameter validation
on a None key value. -/
inductive PyErr where
  | attributeError : PyErr
  | valueError : PyErr
  | keyError : PyErr
  | paramError : PyErr
deriving DecidableEq, Repr

/-- The wall clock of one invocation: `datetime.now()` in the representations
the code consumes (`str(now)`, `now.isoformat()`, `int(now.timestamp())`, and
the locale-formatted string). -/
structure Now where
  raw : String
  iso : String
  ts : Int
  formatted : String

structure Customer where
  customerId : String
  name : Option String
  city : Option String
deriving DecidableEq, Repr

structure TradesPerson where
  tradesPersonId : String
  name : Option String
  trade : Option String
  hourlyRate : Option String
  city : Option String
  contactNumber : Option String
deriving DecidableEq, Repr

structure Booking where
  bookingId : String
  tradesPersonId : Option String
  customerId : Option String
  slot : Option String
  description : Option String
deriving DecidableEq, Repr

/-- The three DynamoDB tables. -/
structure Store where
  customers : List Customer
  tradespersons : List TradesPerson
  bookings : List Booking
deriving DecidableEq, Repr

/-- DynamoDB `put_item`: replace the item carrying the same key, else append. -/
def putList {α : Type} (key : α → String) (l : List α) (a : α) : List α :=
  if l.any (fun x => key x == key a) then l.map (fun x => if key x = key a then a else x)
  else l ++ [a]

def findCustomer (st : Store) (cid : String) : Option Customer :=
  st.customers.find? (fun c => c.customerId == cid)

def putCustomer (st : Store) (c : Customer) : Store :=
  { st with customers := putList Customer.customerId st.customers c }

def getTradesPerson (st : Store) (tpid : String) : Option TradesPerson :=
  st.tradespersons.find? (fun t => t.tradesPersonId == tpid)

def findBooking (st : Store) (bid : String) : Option Booking :=
  st.bookings.find? (fun b => b.bookingId == bid)

def putBooking (st : Store) (b : Booking) : Store :=
  { st with bookings := putList Booking.bookingId st.bookings b }

def deleteBooking (st : Store) (bid : String) : Store :=
  { st with bookings := st.bookings.filter (fun b => !(b.bookingId == bid)) }

def setBookingSlot (st : Store) (bid slot : String) : Store :=
  { st with bookings :=
      st.bookings.map (fun b => if b.bookingId = bid then { b with slot := some slot } else b) }

/-- The TradeIndex query: tradespeople whose (trade, city) equal the given
lowercased pair. -/
def tradeQuery (st : Store) (trade city : String) : List TradesPerson :=
  st.tradespersons.filter (fun t => t.trade == some trade && t.city == some city)

/-- Lexicographic code-point order on char lists, the order DynamoDB applies
to the ASCII slot strings this system stores. -/
def chListLe : List Char → List Char → Bool
  | [], _ => true
  | _ :: _, [] => false
  | a :: as, b :: bs =>
    if a.toNat < b.toNat then true else if b.toNat < a.toNat then false else chListLe as bs

def strLe (a b : String) : Bool := chListLe a.data b.data

/-- The TradesPersonIdIndex query with `Key("slot").between(startSlot, endSlot)`
(DynamoDB `between` is inclusive at both ends, in string order). -/
def availabilityQuery (st : Store) (tpid startSlot endSlot : String) : List Booking :=
  st.bookings.filter (fun b => b.tradesPersonId == some tpid &&
    (match b.slot with
     | some s => strLe startSlot s && strLe s endSlot
     | none => false))

/-- The CustomerIdIndex query. -/
def customerQuery (st : Store) (cid : String) : List Booking :=
  st.bookings.filter (fun b => b.customerId == some cid)

/-- Flattened request-body parameters (name-value pairs). -/
abbrev Params := List (String × String)

/-- The Python dict comprehension building post_params: later duplicates win. -/
def pyDict (ps : Params) : Params := ps.foldl (fun acc p => alUpd acc p.1 p.2) []

/-- `params.get(k)`. -/
def pget (ps : Params) (k : String) : Option String := alGet (pyDict ps) k

/-- Emit a key only when the attribute is present (absent keys are omitted
from a DynamoDB item). -/
def optFld (k : String) : Option String → List (String × JVal)
  | none => []
  | some v => [(k, JVal.s v)]

def customerFields (c : Customer) : List (String × JVal) :=
  ("customerId", JVal.s c.customerId) :: (optFld "name" c.name ++ optFld "city" c.city)

def bookingFields (b : Booking) : List (String × JVal) :=
  ("bookingId", JVal.s b.bookingId) ::
    (optFld "tradesPersonId" b.tradesPersonId ++ optFld "customerId" b.customerId ++
      optFld "slot" b.slot ++ optFld "description" b.description)

def tpFields (t : TradesPerson) : List (String × JVal) :=
  ("tradesPersonId", JVal.s t.tradesPersonId) ::
    (optFld "name" t.name ++ optFld "trade" t.trade ++ optFld "hourlyRate" t.hourlyRate ++
      optFld "city" t.city ++ optFld "contactNumber" t.contactNumber)

/-- `tradesperson_response.get("Item", {})` rendered as a field list: the empty
dict when the lookup found nothing. -/
def tpDetailFields : Option TradesPerson → List (String × JVal)
  | none => []
  | some t => tpFields t

/-- `tradesperson_details.get("name", "Unknown")`. -/
def tpNameD : Option TradesPerson → String
  | none => "Unknown"
  | some t => t.name.getD "Unknown"

/-- `tradesperson_details.get("trade", "Unknown")`. -/
def tpTradeD : Option TradesPerson → String
  | none => "Unknown"
  | some t => t.trade.getD "Unknown"

/-- `search_trades_persons(params)`: `.lower()` on a missing parameter raises;
otherwise a TradeIndex query and a projected list plus count. -/
def search_trades_persons (params : Params) (st : Store) : Except PyErr JVal × Store :=
  match pget params "trade", pget params "city" with
  | some trade, some city =>
    let items := tradeQuery st trade.toLower city.toLower
    (Except.ok (JVal.obj [("statusCode", JVal.n 200),
      ("body", JVal.obj [
        ("tradesPersons", JVal.arr (items.map (fun t => JVal.obj [
          ("tradesPersonId", JVal.s t.tradesPersonId),
          ("name", optS t.name),
          ("trade", optS t.trade),
          ("hourlyRate", optS t.hourlyRate),
          ("city", optS t.city),
          ("contactNumber", optS t.contactNumber)]))),
        ("count", JVal.n items.length)])]), st)
  | _, _ => (Except.error PyErr.attributeError, st)

/-- `check_availability(params)`: parse the two slot boundaries, query booked
slots for the tradesperson in the inclusive string range, then keep every
whole-hour candidate not string-equal to a booked slot. -/
def check_availability (params : Params) (st : Store) : Except PyErr JVal × Store :=
  match pget params "startSlot" with
  | none => (Except.error PyErr.attributeError, st)
  | some start_slot =>
    match fromisoformat (replaceZ start_slot) with
    | none => (Except.error PyErr.valueError, st)
    | some dtS =>
      match pget params "endSlot" with
      | none => (Except.error PyErr.attributeError, st)
      | some end_slot =>
        match fromisoformat (replaceZ end_slot) with
        | none => (Except.error PyErr.valueError, st)
        | some dtE =>
          match pget params "tradesPersonId" with
          | none => (Except.error PyErr.paramError, st)
          | some tpid =>
            let booked_slots := (availabilityQuery st tpid start_slot end_slot).map Booking.slot
            let available_time_slots :=
              ((List.range' dtS.hour (dtE.hour - dtS.hour)).map
                  (fun i => isoformat (replaceHour dtS i))).filter
                (fun slot => !(booked_slots.contains (some slot)))
            (Except.ok (JVal.obj [("statusCode", JVal.n 200),
              ("body", JVal.obj [("availableTimeSlots",
                JVal.arr (available_time_slots.map JVal.s))])]), st)

/-- `create_booking(customer_id, params)`: id from the last five digits of the
epoch-second timestamp, slot normalized to ISO-8601, booking written, then the
tradesperson looked up for the confirmation. -/
def create_booking (customer_id : String) (params : Params) (now : Now) (st : Store) :
    Except PyErr JVal × Store :=
  let tradesperson_id := pget params "tradesPersonId"
  let description := pget params "description"
  match pget params "slot" with
  | none => (Except.error PyErr.attributeError, st)
  | some slot =>
    let booking_id := "b" ++ (toString now.ts).takeRight 5
    match fromisoformat (replaceZ slot) with
    | none => (Except.error PyErr.valueError, st)
    | some dt =>
      let booking : Booking :=
        ⟨booking_id, tradesperson_id, some customer_id, some (isoformat dt), description⟩
      let st1 := putBooking st booking
      match tradesperson_id with
      | none => (Except.error PyErr.paramError, st1)
      | some tpid =>
        let td := getTradesPerson st1 tpid
        (Except.ok (JVal.obj [("statusCode", JVal.n 200),
          ("body", JVal.obj [
            ("message", JVal.s "Booking created successfully"),
            ("bookingId", JVal.s booking_id),
            ("tradesPersonName", JVal.s (tpNameD td)),
            ("slot", JVal.s slot),
            ("description", optS description)])]), st1)

/-- `register_customer(customer_id, params)`: unconditional put, always 200. -/
def register_customer (customer_id : String) (params : Params) (st : Store) :
    Except PyErr JVal × Store :=
  let name := pget params "name"
  let city := pget params "city"
  (Except.ok (JVal.obj [("statusCode", JVal.n 200),
    ("body", JVal.obj [
      ("message", JVal.s "Customer registered successfully"),
      ("name", optS name),
      ("city", optS city)])]), putCustomer st ⟨customer_id, name, city⟩)

/-- `get_customer_details(customer_id)`: single-key lookup, 404 when absent. -/
def get_customer_details (customer_id : String) (st : Store) : Except PyErr JVal × Store :=
  match findCustomer st customer_id with
  | none => (Except.ok (JVal.obj [("statusCode", JVal.n 404),
      ("body", JVal.obj [("error", JVal.s "Customer not found")])]), st)
  | some c => (Except.ok (JVal.obj [("statusCode", JVal.n 200),
      ("body", JVal.obj [("customer", JVal.obj (customerFields c))])]), st)

/-- `get_latest_booking(customer_id)`: CustomerIdIndex query, first item, 404
when empty; enriched with the tradesperson and a reformatted date. -/
def get_latest_booking (customer_id : String) (st : Store) : Except PyErr JVal × Store :=
  match customerQuery st customer_id with
  | [] => (Except.ok (JVal.obj [("statusCode", JVal.n 404),
      ("body", JVal.obj [("error", JVal.s "No bookings found for this customer")])]), st)
  | item :: _ =>
    match item.tradesPersonId with
    | none => (Except.error PyErr.paramError, st)
    | some tpid =>
      let td := getTradesPerson st tpid
      match item.slot with
      | none => (Except.error PyErr.attributeError, st)
      | some slotStr =>
        match fromisoformat (replaceZ slotStr) with
        | none => (Except.error PyErr.valueError, st)
        | some dt =>
          (Except.ok (JVal.obj [("statusCode", JVal.n 200),
            ("body", JVal.obj [("booking", JVal.obj [
              ("bookingId", JVal.s item.bookingId),
              ("tradesPersonName", JVal.s (tpNameD td)),
              ("tradesPersonTrade", JVal.s (tpTradeD td)),
              ("bookingDateTime", JVal.s (fmtYmdHms dt)),
              ("description", optS item.description)])])]), st)

/-- `cancel_booking(params)`: read, 404 when absent, read the tradesperson,
delete, and return the merged dict plus the CANCELLED marker. -/
def cancel_booking (params : Params) (st : Store) : Except PyErr JVal × Store :=
  match pget params "bookingId" with
  | none => (Except.error PyErr.paramError, st)
  | some bid =>
    match findBooking st bid with
    | none => (Except.ok (JVal.obj [("statusCode", JVal.n 404),
        ("body", JVal.obj [("error", JVal.s "Booking not found")])]), st)
    | some booking =>
      match booking.tradesPersonId with
      | none => (Except.error PyErr.paramError, st)
      | some tpid =>
        let td := getTradesPerson st tpid
        let st1 := deleteBooking st bid
        (Except.ok (JVal.obj [("statusCode", JVal.n 200),
          ("body", JVal.obj (alUpdMany (alUpdMany (alUpdMany
            [("message", JVal.s "Booking cancelled successfully")]
            (bookingFields booking)) (tpDetailFields td))
            [("status", JVal.s "CANCELLED")]))]), st1)

/-- `update_booking(customer_id, params)`: read, 404 when absent, 403 on an
ownership mismatch, then write only the normalized slot. -/
def update_booking (customer_id : String) (params : Params) (st : Store) :
    Except PyErr JVal × Store :=
  match pget params "bookingId" with
  | none => (Except.error PyErr.paramError, st)
  | some bid =>
    match findBooking st bid with
    | none => (Except.ok (JVal.obj [("statusCode", JVal.n 404),
        ("body", JVal.obj [("error", JVal.s "Booking not found")])]), st)
    | some booking =>
      if booking.customerId != some customer_id then
        (Except.ok (JVal.obj [("statusCode", JVal.n 403),
          ("body", JVal.obj [("error", JVal.s "Not authorized to update this booking")])]), st)
      else
        match pget params "slot" with
        | none => (Except.error PyErr.attributeError, st)
        | some slot =>
          match fromisoformat (replaceZ slot) with
          | none => (Except.error PyErr.valueError, st)
          | some dt =>
            let new_slot := isoformat dt
            let st1 := setBookingSlot st bid new_slot
            match booking.tradesPersonId with
            | none => (Except.error PyErr.paramError, st1)
            | some tpid =>
              let td := getTradesPerson st1 tpid
              (Except.ok (JVal.obj [("statusCode", JVal.n 200),
                ("body", JVal.obj [
                  ("message", JVal.s "Booking updated successfully"),
                  ("bookingId", JVal.s bid),
                  ("tradesPersonName", JVal.s (tpNameD td)),
                  ("oldSlot", optS booking.slot),
                  ("newSlot", JVal.s new_slot),
                  ("description", optS booking.description)])]), st1)

/-- `get_current_date_time()`: the current instant in four representations. -/
def get_current_date_time (now : Now) : JVal :=
  JVal.obj [("statusCode", JVal.n 200),
    ("body", JVal.obj [
      ("currentDateTime", JVal.s now.raw),
      ("currentDateTimeISO", JVal.s now.iso),
      ("currentTimestamp", JVal.n now.ts),
      ("formattedDate", JVal.s now.formatted)])]

/-- The incoming Bedrock agent event.  `requestBody` is the flattened
properties list of `requestBody.content["application/json"].properties`
(absent body modelled as `none`; values are strings, as the agent runtime
sends them). -/
structure Event where
  actionGroup : Option String
  apiPath : Option String
  httpMethod : Option String
  sessionAttributes : List (String × String)
  promptSessionAttributes : List (String × String)
  requestBody : Option (List (String × String))

/-- `event.get("sessionAttributes", {}).get("phone-number", "00000")`. -/
def custId (ev : Event) : String := (alGet ev.sessionAttributes "phone-number").getD "00000"

def postParams (ev : Event) : Params := ev.requestBody.getD []

/-- `response_body.get("statusCode", 200)`. -/
def statusOf (rb : JVal) : JVal := (rb.get "statusCode").getD (JVal.n 200)

/-- `response_body.get("body", response_body)`. -/
def bodyOf (rb : JVal) : JVal := (rb.get "body").getD rb

/-- The Python comparison `http_status_code == 200`. -/
def statusEq200 (rb : JVal) : Bool :=
  match statusOf rb with
  | JVal.n k => k == 200
  | _ => false

/-- An f-string rendering of the possibly absent apiPath. -/
def pathRepr : Option String → String
  | some p => p
  | none => "None"

/-- The dispatch portion of `handler`: route on apiPath, run the matching
operation, compute the status code and the handler-specific additional prompt
session attributes; unmatched identifiers produce the 400 body directly.  The
returned store is the store at the point the dispatch finished or raised. -/
def routeResult (ev : Event) (now : Now) (st : Store) :
    Except PyErr (JVal × JVal × List (String × JVal)) × Store :=
  match ev.apiPath with
  | some "/get-current-datetime" =>
    let rb := get_current_date_time now
    (Except.ok (rb, statusOf rb, []), st)
  | some "/get-customer-details" =>
    match get_customer_details (custId ev) st with
    | (Except.error e, st1) => (Except.error e, st1)
    | (Except.ok rb, st1) =>
      if statusEq200 rb then
        match rb.get "body" with
        | none => (Except.error PyErr.keyError, st1)
        | some bd =>
          match bd.get "customer" with
          | none => (Except.error PyErr.keyError, st1)
          | some cust =>
            if isTruthy cust then
              match cust.get "name", cust.get "city" with
              | some nm, some ct =>
                (Except.ok (rb, statusOf rb, [("customerName", nm), ("customerCity", ct)]), st1)
              | _, _ => (Except.error PyErr.keyError, st1)
            else (Except.ok (rb, statusOf rb, []), st1)
      else (Except.ok (rb, statusOf rb, []), st1)
  | some "/register-customer" =>
    match register_customer (custId ev) (postParams ev) st with
    | (Except.error e, st1) => (Except.error e, st1)
    | (Except.ok rb, st1) =>
      match rb.get "body" with
      | none => (Except.error PyErr.keyError, st1)
      | some bd =>
        match bd.get "name", bd.get "city" with
        | some nm, some ct =>
          (Except.ok (rb, statusOf rb, [("customerName", nm), ("customerCity", ct)]), st1)
        | _, _ => (Except.error PyErr.keyError, st1)
  | some "/search-trades-persons" =>
    match search_trades_persons (postParams ev) st with
    | (Except.error e, st1) => (Except.error e, st1)
    | (Except.ok rb, st1) => (Except.ok (rb, statusOf rb, []), st1)
  | some "/check-availability" =>
    match check_availability (postParams ev) st with
    | (Except.error e, st1) => (Except.error e, st1)
    | (Except.ok rb, st1) => (Except.ok (rb, statusOf rb, []), st1)
  | some "/create-booking" =>
    match create_booking (custId ev) (postParams ev) now st with
    | (Except.error e, st1) => (Except.error e, st1)
    | (Except.ok rb, st1) => (Except.ok (rb, statusOf rb, []), st1)
  | some "/get-latest-booking" =>
    match get_latest_booking (custId ev) st with
    | (Except.error e, st1) => (Except.error e, st1)
    | (Except.ok rb, st1) => (Except.ok (rb, statusOf rb, []), st1)
  | some "/cancel-booking" =>
    match cancel_booking (postParams ev) st with
    | (Except.error e, st1) => (Except.error e, st1)
    | (Except.ok rb, st1) => (Except.ok (rb, statusOf rb, []), st1)
  | some "/update-booking" =>
    match update_booking (custId ev) (postParams ev) st with
    | (Except.error e, st1) => (Except.error e, st1)
    | (Except.ok rb, st1) => (Except.ok (rb, statusOf rb, []), st1)
  | _ =>
    (Except.ok (JVal.obj [("error", JVal.s ("Unsupported operation: " ++ pathRepr ev.apiPath))],
      JVal.n 400, []), st)

/-- The action-response block of the outgoing envelope. -/
structure ActionResponse where
  actionGroup : Option String
  apiPath : Option String
  httpMethod : Option String
  httpStatusCode : JVal
  responseBody : JVal

/-- The outgoing envelope. -/
structure ApiResponse where
  messageVersion : String
  response : ActionResponse
  sessionAttributes : List (String × String)
  promptSessionAttributes : List (String × JVal)

/-- The prompt-session-attribute merge on the success path: pass-through
attributes, then customerId and customerPhoneNumber, then the
handler-specific additions. -/
def successPromptAttrs (ev : Event) (additional : List (String × JVal)) :
    List (String × JVal) :=
  alUpdMany (alUpdMany (ev.promptSessionAttributes.map (fun p => (p.1, JVal.s p.2)))
    [("customerId", JVal.s (custId ev)), ("customerPhoneNumber", JVal.s (custId ev))]) additional

/-- The top-level Lambda handler: dispatch inside the try block; any raised
fault is caught and converted into the fixed 500 envelope. -/
def handler (ev : Event) (now : Now) (st : Store) : ApiResponse × Store :=
  match routeResult ev now st with
  | (Except.ok (rb, status, additional), st1) =>
    ({ messageVersion := "1.0"
       response :=
         { actionGroup := ev.actionGroup
           apiPath := ev.apiPath
           httpMethod := ev.httpMethod
           httpStatusCode := status
           responseBody := JVal.obj [("application/json", JVal.obj [("body", bodyOf rb)])] }
       sessionAttributes := ev.sessionAttributes
       promptSessionAttributes := successPromptAttrs ev additional }, st1)
  | (Except.error _, st1) =>
    ({ messageVersion := "1.0"
       response :=
         { actionGroup := ev.actionGroup
           apiPath := ev.apiPath
           httpMethod := ev.httpMethod
           httpStatusCode := JVal.n 500
           responseBody := JVal.obj [("application/json",
             JVal.obj [("body", JVal.obj [("error", JVal.s "Internal server error")])])] }
       sessionAttributes := ev.sessionAttributes
       promptSessionAttributes := ev.promptSessionAttributes.map (fun p => (p.1, JVal.s p.2)) },
     st1)

/-- The fixed 500 envelope produced by the except branch of `handler`. -/
def errorEnvelope (ev : Event) : ApiResponse :=
  { messageVersion := "1.0"
    response :=
      { actionGroup := ev.actionGroup
        apiPath := ev.apiPath
        httpMethod := ev.httpMethod
        httpStatusCode := JVal.n 500
        responseBody := JVal.obj [("application/json",
          JVal.obj [("body", JVal.obj [("error", JVal.s "Internal server error")])])] }
    sessionAttributes := ev.sessionAttributes
    promptSessionAttributes := ev.promptSessionAttributes.map (fun p => (p.1, JVal.s p.2)) }

/- Concrete fixtures used to instantiate the general theorems. -/

def st0 : Store := ⟨[], [], []⟩

def nowT : Now :=
  ⟨"2023-11-14 22:13:20", "2023-11-14T22:13:20", 1700000000, "Tuesday, November 14, 2023"⟩

def tpBob : TradesPerson :=
  ⟨"tp1", some "Bob", some "plumber", some "50", some "austin", some "555-1234"⟩

def stC1 : Store :=
  ⟨[], [tpBob],
   [⟨"b1", some "tp1", some "999", some "2025-05-01T09:00:00", none⟩,
    ⟨"b2", some "tp1", some "888", some "2025-05-01T11:00:00", none⟩]⟩

def psC1 : Params :=
  [("tradesPersonId", "tp1"), ("startSlot", "2025-05-01T09:00:00"),
   ("endSlot", "2025-05-01T12:00:00")]

def bOwned : Booking := ⟨"b1", some "tp1", some "999", some "2025-03-01T09:00:00", some "tap"⟩

def stOwn : Store := ⟨[], [tpBob], [bOwned]⟩

def psUpd : Params := [("bookingId", "b1"), ("slot", "2025-06-01T10:00:00")]

def psCancel : Params := [("bookingId", "b1")]

def evGetDetails (identity : String) : Event :=
  ⟨some "booking-actions", some "/get-customer-details", some "POST",
   [("phone-number", identity)], [], none⟩

def evRegisterJane (identity : String) : Event :=
  ⟨some "booking-actions", some "/register-customer", some "POST",
   [("phone-number", identity)], [], some [("name", "Jane"), ("city", "Austin")]⟩

def evUnknown : Event := ⟨some "booking-actions", some "/foo", some "POST", [], [], none⟩

def evNoStart : Event :=
  ⟨some "booking-actions", some "/check-availability", some "POST", [], [],
   some [("tradesPersonId", "tp1")]⟩

def evSearchNoTrade : Event :=
  ⟨some "booking-actions", some "/search-trades-persons", some "POST", [], [],
   some [("city", "austin")]⟩

def evCheckNoEnd : Event :=
  ⟨some "booking-actions", some "/check-availability", some "POST", [], [],
   some [("tradesPersonId", "tp1"), ("startSlot", "2025-05-01T09:00:00")]⟩

def stC8 : Store :=
  ⟨[], [tpBob], [⟨"b90000", some "tp1", some "555", some "2025-01-05T09:00:00", some "old job"⟩]⟩

def stA8 : Store := ⟨[], [tpBob], []⟩

def evCreateC8 : Event :=
  ⟨some "booking-actions", some "/create-booking", some "POST", [("phone-number", "555")], [],
   some [("tradesPersonId", "tp1"), ("slot", "2025-06-02T10:00:00"), ("description", "tap")]⟩

def evLatestC8 : Event :=
  ⟨some "booking-actions", some "/get-latest-booking", some "POST", [("phone-number", "555")], [],
   none⟩

/-- The nine operation paths the dispatcher recognizes. -/
def knownPaths : List String :=
  ["/get-current-datetime", "/get-customer-details", "/register-customer",
   "/search-trades-persons", "/check-availability", "/create-booking",
   "/get-latest-booking", "/cancel-booking", "/update-booking"]

/- Association-list and put-item lemmas shared by the claim proofs. -/

theorem alGet_map_upd {α : Type} (k : String) (v : α) :
    ∀ l : List (String × α),
      alGet (l.map (fun p => if p.1 = k then (k, v) else p)) k
        = if l.any (fun p => p.1 == k) then some v else none := by
  intro l
  induction l with
  | nil => rfl
  | cons p rest ih =>
    obtain ⟨pk, pv⟩ := p
    simp only [List.map_cons, List.any_cons]
    by_cases hp : pk = k
    · rw [show ((if ((pk, pv) : String × α).1 = k then (k, v) else (pk, pv)) = (k, v)) from
        if_pos hp]
      simp [alGet, hp]
    · rw [show ((if ((pk, pv) : String × α).1 = k then (k, v) else (pk, pv)) = (pk, pv)) from
        if_neg hp]
      have hb : (pk == k) = false := by simp [hp]
      simp only [alGet, hb, Bool.false_or, if_false]
      rw [ih]
      simp

theorem alGet_eq_none_of_any_false {α : Type} (k : String) :
    ∀ l : List (String × α), l.any (fun p => p.1 == k) = false → alGet l k = none := by
  intro l
  induction l with
  | nil => intro _; rfl
  | cons p rest ih =>
    obtain ⟨pk, pv⟩ := p
    intro h
    simp only [List.any_cons, Bool.or_eq_false_iff] at h
    simp [alGet, h.1, ih h.2]

theorem alGet_append_left_none {α : Type} (k : String) (l2 : List (String × α)) :
    ∀ l : List (String × α), alGet l k = none → alGet (l ++ l2) k = alGet l2 k := by
  intro l
  induction l with
  | nil => intro _; rfl
  | cons p rest ih =>
    obtain ⟨pk, pv⟩ := p
    intro h
    by_cases hp : pk = k
    · simp [alGet, hp] at h
    · simp only [alGet, show (pk == k) = false from by simp [hp]] at h
      simp only [List.cons_append, alGet, show (pk == k) = false from by simp [hp]]
      simpa using ih h

theorem alGet_alUpd_self {α : Type} (l : List (String × α)) (k : String) (v : α) :
    alGet (alUpd l k v) k = some v := by
  unfold alUpd
  split
  case isTrue h => rw [alGet_map_upd, if_pos h]
  case isFalse h =>
    have hfalse : l.any (fun p => p.1 == k) = false := by
      cases hl : l.any (fun p => p.1 == k) with
      | true => exact absurd hl h
      | false => rfl
    rw [alGet_append_left_none k _ l (alGet_eq_none_of_any_false k l hfalse)]
    simp [alGet]

theorem alGet_map_upd_ne {α : Type} (kW k : String) (v : α) (hne : kW ≠ k) :
    ∀ l : List (String × α),
      alGet (l.map (fun p => if p.1 = kW then (kW, v) else p)) k = alGet l k := by
  intro l
  induction l with
  | nil => rfl
  | cons p rest ih =>
    obtain ⟨pk, pv⟩ := p
    simp only [List.map_cons]
    by_cases hp : pk = kW
    · rw [show ((if ((pk, pv) : String × α).1 = kW then (kW, v) else (pk, pv)) = (kW, v)) from
        if_pos hp]
      simp [alGet, show (kW == k) = false from by simp [hne],
        show (pk == k) = false from by simp [hp, hne], ih]
    · rw [show ((if ((pk, pv) : String × α).1 = kW then (kW, v) else (pk, pv)) = (pk, pv)) from
        if_neg hp]
      simp [alGet, ih]

theorem alGet_append_single_ne {α : Type} (kW k : String) (v : α) (hne : kW ≠ k) :
    ∀ l : List (String × α), alGet (l ++ [(kW, v)]) k = alGet l k := by
  intro l
  induction l with
  | nil => simp [alGet, show (kW == k) = false from by simp [hne]]
  | cons p rest ih =>
    obtain ⟨pk, pv⟩ := p
    simp only [List.cons_append, alGet, List.append_eq]
    rw [ih]

theorem alGet_alUpd_ne {α : Type} (l : List (String × α)) (kW k : String) (v : α)
    (hne : kW ≠ k) : alGet (alUpd l kW v) k = alGet l k := by
  unfold alUpd
  split
  case isTrue h => rw [alGet_map_upd_ne kW k v hne]
  case isFalse h => rw [alGet_append_single_ne kW k v hne]

theorem find?_map_replace {α : Type} (key : α → String) (a : α) :
    ∀ l : List α,
      (l.map (fun x => if key x = key a then a else x)).find? (fun x => key x == key a)
        = if l.any (fun x => key x == key a) then some a else none := by
  intro l
  induction l with
  | nil => rfl
  | cons x xs ih =>
    simp only [List.map_cons, List.any_cons]
    by_cases hx : key x = key a
    · rw [if_pos hx]
      simp [List.find?, hx]
    · rw [if_neg hx]
      simp [List.find?, hx, ih, show (key x == key a) = false from by simp [hx]]

theorem find?_append_single {α : Type} (p : α → Bool) (a : α) (hpa : p a = true) :
    ∀ l : List α, (∀ x ∈ l, p x = false) → (l ++ [a]).find? p = some a := by
  intro l
  induction l with
  | nil => intro _; simp [List.find?, hpa]
  | cons x xs ih =>
    intro h
    have hx : p x = false := h x (by simp)
    simp only [List.cons_append, List.find?, hx]
    exact ih (fun y hy => h y (by simp [hy]))

theorem find?_putList {α : Type} (key : α → String) (l : List α) (a : α) :
    (putList key l a).find? (fun x => key x == key a) = some a := by
  unfold putList
  split
  case isTrue h => rw [find?_map_replace, if_pos h]
  case isFalse h =>
    have hfalse : l.any (fun x => key x == key a) = false := by
      cases hl : l.any (fun x => key x == key a) with
      | true => exact absurd hl h
      | false => rfl
    refine find?_append_single _ a (by simp) l ?_
    intro x hx
    have := (List.any_eq_false.mp hfalse) x hx
    simpa using this

theorem findCustomer_putCustomer (st : Store) (c : Customer) :
    findCustomer (putCustomer st c) c.customerId = some c :=
  find?_putList Customer.customerId st.customers c

theorem findBooking_deleteBooking (st : Store) (bid : String) :
    findBooking (deleteBooking st bid) bid = none := by
  apply List.find?_eq_none.mpr
  intro b hb
  have := (List.mem_filter.mp hb).2
  simpa using this

theorem statusOf_obj (k : Int) (rest : List (String × JVal)) :
    statusOf (JVal.obj (("statusCode", JVal.n k) :: rest)) = JVal.n k := by
  simp [statusOf, JVal.get, alGet]

/- Every handler result carries an integer statusCode in its leading field. -/

theorem status_search (ps : Params) (st : Store) (rb : JVal) (st1 : Store)
    (h : search_trades_persons ps st = (Except.ok rb, st1)) :
    ∃ k : Int, statusOf rb = JVal.n k := by
  unfold search_trades_persons at h
  try simp only [] at h
  iterate 3 all_goals try split at h
  all_goals cases h
  exact ⟨200, statusOf_obj 200 _⟩

theorem status_check (ps : Params) (st : Store) (rb : JVal) (st1 : Store)
    (h : check_availability ps st = (Except.ok rb, st1)) :
    ∃ k : Int, statusOf rb = JVal.n k := by
  unfold check_availability at h
  try simp only [] at h
  iterate 6 all_goals try split at h
  all_goals cases h
  exact ⟨200, statusOf_obj 200 _⟩

theorem status_create (cid : String) (ps : Params) (now : Now) (st : Store) (rb : JVal)
    (st1 : Store) (h : create_booking cid ps now st = (Except.ok rb, st1)) :
    ∃ k : Int, statusOf rb = JVal.n k := by
  unfold create_booking at h
  try simp only [] at h
  iterate 4 all_goals try split at h
  all_goals cases h
  exact ⟨200, statusOf_obj 200 _⟩

theorem status_register (cid : String) (ps : Params) (st : Store) (rb : JVal) (st1 : Store)
    (h : register_customer cid ps st = (Except.ok rb, st1)) :
    ∃ k : Int, statusOf rb = JVal.n k := by
  unfold register_customer at h
  cases h
  exact ⟨200, statusOf_obj 200 _⟩

theorem status_details (cid : String) (st : Store) (rb : JVal) (st1 : Store)
    (h : get_customer_details cid st = (Except.ok rb, st1)) :
    ∃ k : Int, statusOf rb = JVal.n k := by
  unfold get_customer_details at h
  iterate 2 all_goals try split at h
  all_goals cases h
  exacts [⟨404, statusOf_obj 404 _⟩, ⟨200, statusOf_obj 200 _⟩]

theorem status_latest (cid : String) (st : Store) (rb : JVal) (st1 : Store)
    (h : get_latest_booking cid st = (Except.ok rb, st1)) :
    ∃ k : Int, statusOf rb = JVal.n k := by
  unfold get_latest_booking at h
  try simp only [] at h
  iterate 5 all_goals try split at h
  all_goals cases h
  exacts [⟨404, statusOf_obj 404 _⟩, ⟨200, statusOf_obj 200 _⟩]

theorem status_cancel (ps : Params) (st : Store) (rb : JVal) (st1 : Store)
    (h : cancel_booking ps st = (Except.ok rb, st1)) :
    ∃ k : Int, statusOf rb = JVal.n k := by
  unfold cancel_booking at h
  try simp only [] at h
  iterate 4 all_goals try split at h
  all_goals cases h
  exacts [⟨404, statusOf_obj 404 _⟩, ⟨200, statusOf_obj 200 _⟩]

theorem status_update (cid : String) (ps : Params) (st : Store) (rb : JVal) (st1 : Store)
    (h : update_booking cid ps st = (Except.ok rb, st1)) :
    ∃ k : Int, statusOf rb = JVal.n k := by
  unfold update_booking at h
  try simp only [] at h
  iterate 7 all_goals try split at h
  all_goals cases h
  exacts [⟨404, statusOf_obj 404 _⟩, ⟨403, statusOf_obj 403 _⟩, ⟨200, statusOf_obj 200 _⟩]

set_option maxHeartbeats 1000000 in
/-- Whenever dispatch finishes without a fault, the status it hands to the
envelope builder is an integer. -/
theorem routeStatus (ev : Event) (now : Now) (st : Store) (rb status : JVal)
    (add : List (String × JVal)) (st1 : Store)
    (h : routeResult ev now st = (Except.ok (rb, status, add), st1)) :
    ∃ k : Int, status = JVal.n k := by
  unfold routeResult at h
  try simp only [] at h
  split at h
  case _ => cases h; exact ⟨200, statusOf_obj 200 _⟩
  case _ =>
    split at h
    case _ => cases h
    case _ =>
      iterate 5 all_goals try split at h
      all_goals cases h
      all_goals exact status_details _ _ _ _ (by assumption)
  case _ =>
    split at h
    case _ => cases h
    case _ =>
      iterate 3 all_goals try split at h
      all_goals cases h
      all_goals exact status_register _ _ _ _ _ (by assumption)
  case _ =>
    split at h
    case _ => cases h
    case _ => cases h; exact status_search _ _ _ _ (by assumption)
  case _ =>
    split at h
    case _ => cases h
    case _ => cases h; exact status_check _ _ _ _ (by assumption)
  case _ =>
    split at h
    case _ => cases h
    case _ => cases h; exact status_create _ _ _ _ _ _ (by assumption)
  case _ =>
    split at h
    case _ => cases h
    case _ => cases h; exact status_latest _ _ _ _ (by assumption)
  case _ =>
    split at h
    case _ => cases h
    case _ => cases h; exact status_cancel _ _ _ _ (by assumption)
  case _ =>
    split at h
    case _ => cases h
    case _ => cases h; exact status_update _ _ _ _ _ (by assumption)
  case _ => cases h; exact ⟨400, rfl⟩

/-- C2: for every incoming request, on every path (all nine operations, unknown
operation, and the uncaught-fault path alike), the returned response has the
fixed envelope shape: messageVersion "1.0", a response block echoing
actionGroup, apiPath and httpMethod with an integer httpStatusCode and a
responseBody wrapped under the application/json content-type key, a
sessionAttributes mapping (passed through), and a promptSessionAttributes
mapping — differing only in status code and body contents. -/
theorem C2_envelope_shape (ev : Event) (now : Now) (st : Store) :
    (handler ev now st).1.messageVersion = "1.0" ∧
    (handler ev now st).1.response.actionGroup = ev.actionGroup ∧
    (handler ev now st).1.response.apiPath = ev.apiPath ∧
    (handler ev now st).1.response.httpMethod = ev.httpMethod ∧
    (handler ev now st).1.sessionAttributes = ev.sessionAttributes ∧
    (∃ k : Int, (handler ev now st).1.response.httpStatusCode = JVal.n k) ∧
    (∃ b : JVal, (handler ev now st).1.response.responseBody
      = JVal.obj [("application/json", JVal.obj [("body", b)])]) := by
  rcases hr : routeResult ev now st with ⟨exc, st1⟩
  cases exc with
  | ok triple =>
    rcases triple with ⟨rb, status, add⟩
    have hs := routeStatus ev now st rb status add st1 hr
    unfold handler
    rw [hr]
    exact ⟨rfl, rfl, rfl, rfl, rfl, hs, ⟨bodyOf rb, rfl⟩⟩
  | error e =>
    unfold handler
    rw [hr]
    exact ⟨rfl, rfl, rfl, rfl, rfl, ⟨500, rfl⟩,
      ⟨JVal.obj [("error", JVal.s "Internal server error")], rfl⟩⟩

/-- C3: whenever dispatch or a handler raises an uncaught fault, the handler
returns (rather than propagates) the fixed 500 envelope: generic
"Internal server error" body, echoed actionGroup, apiPath and httpMethod, and
the sessionAttributes and promptSessionAttributes of the request passed
through unchanged. -/
theorem C3_fault_to_500 (ev : Event) (now : Now) (st st1 : Store) (e : PyErr)
    (h : routeResult ev now st = (Except.error e, st1)) :
    handler ev now st =
      ({ messageVersion := "1.0"
         response :=
           { actionGroup := ev.actionGroup
             apiPath := ev.apiPath
             httpMethod := ev.httpMethod
             httpStatusCode := JVal.n 500
             responseBody := JVal.obj [("application/json",
               JVal.obj [("body", JVal.obj [("error", JVal.s "Internal server error")])])] }
         sessionAttributes := ev.sessionAttributes
         promptSessionAttributes :=
           ev.promptSessionAttributes.map (fun p => (p.1, JVal.s p.2)) }, st1) := by
  unfold handler
  rw [h]

/-- Witness for C3: a check-availability request without a startSlot parameter
raises inside the handler and yields the 500 envelope. -/
theorem C3_witness :
    routeResult evNoStart nowT st0 = (Except.error PyErr.attributeError, st0) ∧
    handler evNoStart nowT st0 =
      ({ messageVersion := "1.0"
         response :=
           { actionGroup := some "booking-actions"
             apiPath := some "/check-availability"
             httpMethod := some "POST"
             httpStatusCode := JVal.n 500
             responseBody := JVal.obj [("application/json",
               JVal.obj [("body", JVal.obj [("error", JVal.s "Internal server error")])])] }
         sessionAttributes := []
         promptSessionAttributes := [] }, st0) :=
  ⟨rfl, C3_fault_to_500 evNoStart nowT st0 st0 PyErr.attributeError rfl⟩

/-- C4: an operation identifier that is not one of the nine known paths makes
dispatch return a 400 result (never a raised fault) whose body names the
identifier in an unsupported-operation message, and the stores are left
unchanged. -/
theorem C4_unknown_operation (ev : Event) (now : Now) (st : Store) (p : String)
    (hp : ev.apiPath = some p) (hnot : p ∉ knownPaths) :
    routeResult ev now st =
      (Except.ok (JVal.obj [("error", JVal.s ("Unsupported operation: " ++ p))],
        JVal.n 400, []), st) ∧
    (handler ev now st).1.response.httpStatusCode = JVal.n 400 ∧
    (handler ev now st).1.response.responseBody
      = JVal.obj [("application/json", JVal.obj [("body",
          JVal.obj [("error", JVal.s ("Unsupported operation: " ++ p))])])] ∧
    (handler ev now st).2 = st := by
  have hroute : routeResult ev now st =
      (Except.ok (JVal.obj [("error", JVal.s ("Unsupported operation: " ++ p))],
        JVal.n 400, []), st) := by
    unfold routeResult
    rw [hp]
    split <;> simp_all [knownPaths, pathRepr]
  refine ⟨hroute, ?_, ?_, ?_⟩ <;> (unfold handler; rw [hroute]; try rfl)

/-- C5: update-booking returns 403 with an error body and leaves every store
unchanged when the booking exists but belongs to a different customer, and
404 (also without a write) when the booking id is absent. -/
theorem C5_update_booking_auth (cid bid : String) (ps : Params) (st : Store)
    (hbid : pget ps "bookingId" = some bid) :
    (∀ b : Booking, findBooking st bid = some b → b.customerId ≠ some cid →
      update_booking cid ps st =
        (Except.ok (JVal.obj [("statusCode", JVal.n 403),
          ("body", JVal.obj [("error", JVal.s "Not authorized to update this booking")])]),
         st)) ∧
    (findBooking st bid = none →
      update_booking cid ps st =
        (Except.ok (JVal.obj [("statusCode", JVal.n 404),
          ("body", JVal.obj [("error", JVal.s "Booking not found")])]), st)) := by
  constructor
  · intro b hfind hne
    simp only [update_booking, hbid, hfind]
    rw [if_pos (by simpa [bne_iff_ne] using hne)]
  · intro hnone
    simp only [update_booking, hbid, hnone]

/-- Witness for C5: customer 555 cannot update the booking owned by 999; the
store is returned unchanged. -/
theorem C5_witness :
    pget psUpd "bookingId" = some "b1" ∧
    findBooking stOwn "b1" = some bOwned ∧
    bOwned.customerId ≠ some "555" ∧
    update_booking "555" psUpd stOwn =
      (Except.ok (JVal.obj [("statusCode", JVal.n 403),
        ("body", JVal.obj [("error", JVal.s "Not authorized to update this booking")])]),
       stOwn) :=
  ⟨rfl, rfl, by decide,
    (C5_update_booking_auth "555" "b1" psUpd stOwn rfl).1 bOwned rfl (by decide)⟩

/-- C7: cancel-booking on an absent id returns 404 and deletes nothing; on an
existing booking (which, per the data model, carries a tradesperson id) it
deletes the booking — so the id is no longer found — and returns 200 with the
merged booking and tradesperson fields plus the CANCELLED status marker. -/
theorem C7_cancel_booking (ps : Params) (st : Store) (bid : String)
    (hbid : pget ps "bookingId" = some bid) :
    (findBooking st bid = none →
      cancel_booking ps st =
        (Except.ok (JVal.obj [("statusCode", JVal.n 404),
          ("body", JVal.obj [("error", JVal.s "Booking not found")])]), st)) ∧
    (∀ (b : Booking) (tpid : String), findBooking st bid = some b →
      b.tradesPersonId = some tpid →
      cancel_booking ps st =
        (Except.ok (JVal.obj [("statusCode", JVal.n 200),
          ("body", JVal.obj (alUpdMany (alUpdMany (alUpdMany
            [("message", JVal.s "Booking cancelled successfully")]
            (bookingFields b)) (tpDetailFields (getTradesPerson st tpid)))
            [("status", JVal.s "CANCELLED")]))]), deleteBooking st bid) ∧
      findBooking (deleteBooking st bid) bid = none ∧
      alGet (alUpdMany (alUpdMany (alUpdMany
        [("message", JVal.s "Booking cancelled successfully")]
        (bookingFields b)) (tpDetailFields (getTradesPerson st tpid)))
        [("status", JVal.s "CANCELLED")]) "status" = some (JVal.s "CANCELLED")) := by
  constructor
  · intro hnone
    simp only [cancel_booking, hbid, hnone]
  · intro b tpid hfind htp
    refine ⟨?_, findBooking_deleteBooking st bid, ?_⟩
    · simp only [cancel_booking, hbid, hfind, htp]
    · exact alGet_alUpd_self _ "status" (JVal.s "CANCELLED")

/-- Witness for C7: cancelling booking b1 removes it and returns the merged
200 body with the CANCELLED marker. -/
theorem C7_witness :
    pget psCancel "bookingId" = some "b1" ∧
    findBooking stOwn "b1" = some bOwned ∧
    bOwned.tradesPersonId = some "tp1" ∧
    (cancel_booking psCancel stOwn =
      (Except.ok (JVal.obj [("statusCode", JVal.n 200),
        ("body", JVal.obj (alUpdMany (alUpdMany (alUpdMany
          [("message", JVal.s "Booking cancelled successfully")]
          (bookingFields bOwned)) (tpDetailFields (getTradesPerson stOwn "tp1")))
          [("status", JVal.s "CANCELLED")]))]), deleteBooking stOwn "b1") ∧
     findBooking (deleteBooking stOwn "b1") "b1" = none ∧
     alGet (alUpdMany (alUpdMany (alUpdMany
       [("message", JVal.s "Booking cancelled successfully")]
       (bookingFields bOwned)) (tpDetailFields (getTradesPerson stOwn "tp1")))
       [("status", JVal.s "CANCELLED")]) "status" = some (JVal.s "CANCELLED")) :=
  ⟨rfl, rfl, rfl, (C7_cancel_booking psCancel stOwn "b1" rfl).2 bOwned "tp1" rfl rfl⟩

/-- C9: register-customer is an unconditional upsert by identity: registering
the same identity again with a different city succeeds with status 200 and
overwrites the stored record, so the final lookup returns the second city
(last write wins). -/
theorem C9_register_upsert (cid : String) (ps1 ps2 : Params) (st : Store)
    (c1 c2 : String) (_h1 : pget ps1 "city" = some c1) (h2 : pget ps2 "city" = some c2)
    (_hne : c1 ≠ c2) :
    register_customer cid ps2 (register_customer cid ps1 st).2 =
      (Except.ok (JVal.obj [("statusCode", JVal.n 200),
        ("body", JVal.obj [
          ("message", JVal.s "Customer registered successfully"),
          ("name", optS (pget ps2 "name")),
          ("city", JVal.s c2)])]),
       putCustomer (register_customer cid ps1 st).2 ⟨cid, pget ps2 "name", some c2⟩) ∧
    findCustomer (register_customer cid ps2 (register_customer cid ps1 st).2).2 cid
      = some ⟨cid, pget ps2 "name", some c2⟩ := by
  constructor
  · simp only [register_customer, h2, optS]
  · have hput := findCustomer_putCustomer (register_customer cid ps1 st).2
      ⟨cid, pget ps2 "name", some c2⟩
    simpa [register_customer, h2] using hput

/-- Witness for C9: registering 555 with Austin and again with Boston leaves
Boston in the store. -/
theorem C9_witness :
    ("Austin" : String) ≠ "Boston" ∧
    findCustomer (register_customer "555" [("name", "Jane"), ("city", "Boston")]
        (register_customer "555" [("name", "Jane"), ("city", "Austin")] st0).2).2 "555"
      = some ⟨"555", some "Jane", some "Boston"⟩ :=
  ⟨by decide,
    (C9_register_upsert "555" [("name", "Jane"), ("city", "Austin")]
      [("name", "Jane"), ("city", "Boston")] st0 "Austin" "Boston" rfl rfl (by decide)).2⟩

/-- C10: a search-trades-persons request missing trade or city, and a
check-availability request missing startSlot or endSlot, raise inside the
handler instead of producing a bad-request result, so the public response is
the 500 internal-error envelope, not a 400. -/
theorem C10_missing_params_500 (ev : Event) (now : Now) (st : Store) :
    (ev.apiPath = some "/search-trades-persons" →
      (pget (postParams ev) "trade" = none ∨ pget (postParams ev) "city" = none) →
      (handler ev now st).1.response.httpStatusCode = JVal.n 500 ∧
      (handler ev now st).1.response.responseBody = JVal.obj [("application/json",
        JVal.obj [("body", JVal.obj [("error", JVal.s "Internal server error")])])]) ∧
    (ev.apiPath = some "/check-availability" →
      (pget (postParams ev) "startSlot" = none ∨ pget (postParams ev) "endSlot" = none) →
      (handler ev now st).1.response.httpStatusCode = JVal.n 500 ∧
      (handler ev now st).1.response.responseBody = JVal.obj [("application/json",
        JVal.obj [("body", JVal.obj [("error", JVal.s "Internal server error")])])]) := by
  constructor
  · intro hp hmiss
    have hsearch : search_trades_persons (postParams ev) st =
        (Except.error PyErr.attributeError, st) := by
      rcases hmiss with hm | hm
      · unfold search_trades_persons
        rw [hm]
      · rcases ht : pget (postParams ev) "trade" with _ | t
        · unfold search_trades_persons
          rw [ht]
        · unfold search_trades_persons
          rw [ht, hm]
    have hroute : routeResult ev now st = (Except.error PyErr.attributeError, st) := by
      unfold routeResult
      split <;> simp_all [hsearch]
    unfold handler
    rw [hroute]
    exact ⟨rfl, rfl⟩
  · intro hp hmiss
    have hcheck : ∃ e, check_availability (postParams ev) st = (Except.error e, st) := by
      rcases hmiss with hm | hm
      · exact ⟨PyErr.attributeError, by unfold check_availability; rw [hm]⟩
      · rcases hs : pget (postParams ev) "startSlot" with _ | s
        · exact ⟨PyErr.attributeError, by unfold check_availability; rw [hs]⟩
        · rcases hd : fromisoformat (replaceZ s) with _ | dt
          · exact ⟨PyErr.valueError, by unfold check_availability; simp only [hs, hd]⟩
          · exact ⟨PyErr.attributeError, by unfold check_availability; simp only [hs, hd, hm]⟩
    obtain ⟨e, hc⟩ := hcheck
    have hroute : routeResult ev now st = (Except.error e, st) := by
      unfold routeResult
      split <;> simp_all [hc]
    unfold handler
    rw [hroute]
    exact ⟨rfl, rfl⟩

/-- Witness for C10: a search without trade and an availability check without
endSlot both surface as 500 envelopes. -/
theorem C10_witness :
    pget (postParams evSearchNoTrade) "trade" = none ∧
    pget (postParams evCheckNoEnd) "endSlot" = none ∧
    (handler evSearchNoTrade nowT stOwn).1.response.httpStatusCode = JVal.n 500 ∧
    (handler evCheckNoEnd nowT stOwn).1.response.httpStatusCode = JVal.n 500 :=
  ⟨rfl, rfl,
    ((C10_missing_params_500 evSearchNoTrade nowT stOwn).1 rfl (Or.inl rfl)).1,
    ((C10_missing_params_500 evCheckNoEnd nowT stOwn).2 rfl (Or.inr rfl)).1⟩

theorem isDig_dChar (k : Nat) (hk : k < 10) : isDig (dChar k) = true := by
  interval_cases k <;> decide

theorem dVal_dChar (k : Nat) (hk : k < 10) : dVal (dChar k) = k := by
  interval_cases k <;> decide

theorem isDig_dChar_mod (n : Nat) : isDig (dChar (n % 10)) = true :=
  isDig_dChar _ (by omega)

theorem dVal_le_of_isDig (c : Char) (h : isDig c = true) : dVal c ≤ 9 := by
  unfold isDig at h
  simp only [Bool.and_eq_true, decide_eq_true_eq] at h
  unfold dVal
  omega

theorem d2v_pad2c (n : Nat) (hn : n ≤ 99) : d2v (dChar (n / 10 % 10)) (dChar (n % 10)) = n := by
  unfold d2v
  rw [dVal_dChar _ (by omega), dVal_dChar _ (by omega)]
  omega

theorem parseTz_cons (sign : Char) (a b : Nat) (hsign : (sign == '+' || sign == '-') = true)
    (ha : a ≤ 23) (hb2 : b ≤ 59) :
    parseTz (sign :: (pad2c a ++ ':' :: pad2c b))
      = some (some (if sign == '-' then -((a * 60 + b : Nat) : Int)
          else ((a * 60 + b : Nat) : Int))) := by
  have hg : ((sign == '+' || sign == '-') && isDig (dChar (a / 10 % 10)) &&
      isDig (dChar (a % 10)) && isDig (dChar (b / 10 % 10)) && isDig (dChar (b % 10))) = true := by
    simp only [hsign, isDig_dChar_mod, Bool.and_self]
  have hg2 : (decide (a ≤ 23) && decide (b ≤ 59)) = true := by simp [ha, hb2]
  unfold pad2c
  show parseTz [sign, dChar (a / 10 % 10), dChar (a % 10), ':',
    dChar (b / 10 % 10), dChar (b % 10)] = _
  rw [parseTz]
  rw [if_pos hg]
  simp only []
  rw [d2v_pad2c a (by omega), d2v_pad2c b (by omega)]
  rw [if_pos hg2]

theorem parseTz_tzChars (tz : Option Int)
    (htz : ∀ off : Int, tz = some off → off.natAbs ≤ 1439) :
    parseTz (tzChars tz) = some tz := by
  cases tz with
  | none => rfl
  | some off =>
    have hb : off.natAbs ≤ 1439 := htz off rfl
    simp only [tzChars]
    by_cases hneg : off < 0
    · rw [if_pos hneg,
        parseTz_cons '-' (off.natAbs / 60) (off.natAbs % 60) (by decide) (by omega) (by omega)]
      rw [if_pos (by decide)]
      congr 1
      congr 1
      omega
    · rw [if_neg hneg,
        parseTz_cons '+' (off.natAbs / 60) (off.natAbs % 60) (by decide) (by omega) (by omega)]
      rw [if_neg (by decide)]
      congr 1
      congr 1
      omega

theorem parseSec_cons (s : Nat) (tz : Option Int) (hs : s ≤ 99)
    (htz : parseTz (tzChars tz) = some tz) :
    parseSec (':' :: (pad2c s ++ tzChars tz)) = some (s, tz) := by
  unfold pad2c
  show parseSec (':' :: dChar (s / 10 % 10) :: dChar (s % 10) :: tzChars tz) = _
  rw [parseSec]
  rw [if_pos (by simp only [isDig_dChar_mod, Bool.and_self])]
  rw [htz]
  rw [d2v_pad2c s hs]

theorem parseTime_cons (sep : Char) (h mi s : Nat) (tz : Option Int)
    (hh : h ≤ 99) (hmi : mi ≤ 99) (hs : s ≤ 99)
    (htz : parseTz (tzChars tz) = some tz) :
    parseTime (sep :: (pad2c h ++ ':' :: pad2c mi ++ ':' :: pad2c s ++ tzChars tz))
      = some (h, mi, s, tz) := by
  show parseTime (sep :: dChar (h / 10 % 10) :: dChar (h % 10) :: ':' ::
    dChar (mi / 10 % 10) :: dChar (mi % 10) :: (':' :: (pad2c s ++ tzChars tz))) = _
  rw [parseTime]
  rw [if_pos (by simp only [isDig_dChar_mod, Bool.and_self])]
  rw [parseSec_cons s tz hs htz]
  rw [d2v_pad2c h hh, d2v_pad2c mi hmi]


theorem daysInMonth_le (y m : Nat) : daysInMonth y m ≤ 31 := by
  unfold daysInMonth
  split
  · split <;> omega
  · split <;> omega

theorem fromChars_isoChars (dt : PyDateTime)
    (hy1 : 1 ≤ dt.year) (hy2 : dt.year ≤ 9999)
    (hmo1 : 1 ≤ dt.month) (hmo2 : dt.month ≤ 12)
    (hda1 : 1 ≤ dt.day) (hda2 : dt.day ≤ daysInMonth dt.year dt.month)
    (hho : dt.hour ≤ 23) (hmi : dt.minute ≤ 59) (hss : dt.second ≤ 59)
    (htz : ∀ off : Int, dt.tzOffsetMin = some off → off.natAbs ≤ 1439) :
    fromChars (isoChars dt) = some dt := by
  have hy : 1000 * dVal (dChar (dt.year / 1000 % 10)) + 100 * dVal (dChar (dt.year / 100 % 10))
      + 10 * dVal (dChar (dt.year / 10 % 10)) + dVal (dChar (dt.year % 10)) = dt.year := by
    rw [dVal_dChar _ (by omega), dVal_dChar _ (by omega), dVal_dChar _ (by omega),
      dVal_dChar _ (by omega)]
    omega
  show fromChars (dChar (dt.year / 1000 % 10) :: dChar (dt.year / 100 % 10) ::
    dChar (dt.year / 10 % 10) :: dChar (dt.year % 10) :: '-' ::
    dChar (dt.month / 10 % 10) :: dChar (dt.month % 10) :: '-' ::
    dChar (dt.day / 10 % 10) :: dChar (dt.day % 10) ::
    ('T' :: (pad2c dt.hour ++ ':' :: pad2c dt.minute ++ ':' :: pad2c dt.second ++
      tzChars dt.tzOffsetMin))) = some dt
  rw [fromChars]
  rw [if_pos (by simp only [isDig_dChar_mod, Bool.and_self])]
  simp only []
  have hd31 := daysInMonth_le dt.year dt.month
  rw [hy, d2v_pad2c dt.month (by omega), d2v_pad2c dt.day (by omega)]
  rw [if_pos (by
    simp only [Bool.and_eq_true, decide_eq_true_eq]
    exact ⟨⟨⟨⟨hy1, hmo1⟩, hmo2⟩, hda1⟩, hda2⟩)]
  rw [parseTime_cons 'T' dt.hour dt.minute dt.second dt.tzOffsetMin (by omega) (by omega)
    (by omega) (parseTz_tzChars dt.tzOffsetMin htz)]
  simp only []
  rw [if_pos (by
    simp only [Bool.and_eq_true, decide_eq_true_eq]
    exact ⟨⟨hho, hmi⟩, hss⟩)]

theorem dChar_ne_Z (k : Nat) (hk : k < 10) : ¬ dChar k = 'Z' := by
  interval_cases k <;> decide

theorem dChar_mod_ne_Z (n : Nat) : ¬ dChar (n % 10) = 'Z' :=
  dChar_ne_Z _ (by omega)

theorem pad2c_ne_Z (n : Nat) : ∀ c ∈ pad2c n, ¬ c = 'Z' := by
  intro c hc
  unfold pad2c at hc
  simp only [List.mem_cons, List.not_mem_nil, or_false] at hc
  rcases hc with rfl | rfl
  · exact dChar_mod_ne_Z _
  · exact dChar_mod_ne_Z _

theorem pad4c_ne_Z (n : Nat) : ∀ c ∈ pad4c n, ¬ c = 'Z' := by
  intro c hc
  unfold pad4c at hc
  simp only [List.mem_cons, List.not_mem_nil, or_false] at hc
  rcases hc with rfl | rfl | rfl | rfl
  · exact dChar_mod_ne_Z _
  · exact dChar_mod_ne_Z _
  · exact dChar_mod_ne_Z _
  · exact dChar_mod_ne_Z _

theorem tzChars_ne_Z (tz : Option Int) : ∀ c ∈ tzChars tz, ¬ c = 'Z' := by
  cases tz with
  | none => intro c hc; cases hc
  | some off =>
    simp only [tzChars]
    refine List.forall_mem_cons.mpr ⟨?_, ?_⟩
    · by_cases hneg : off < 0 <;> simp [hneg]
    · exact List.forall_mem_append.mpr ⟨pad2c_ne_Z _,
        List.forall_mem_cons.mpr ⟨by decide, pad2c_ne_Z _⟩⟩

theorem isoChars_ne_Z (dt : PyDateTime) : ∀ c ∈ isoChars dt, ¬ c = 'Z' := by
  unfold isoChars
  refine List.forall_mem_append.mpr ⟨?_, tzChars_ne_Z _⟩
  refine List.forall_mem_append.mpr ⟨?_, List.forall_mem_cons.mpr ⟨by decide, pad2c_ne_Z _⟩⟩
  refine List.forall_mem_append.mpr ⟨?_, List.forall_mem_cons.mpr ⟨by decide, pad2c_ne_Z _⟩⟩
  refine List.forall_mem_append.mpr ⟨?_, List.forall_mem_cons.mpr ⟨by decide, pad2c_ne_Z _⟩⟩
  refine List.forall_mem_append.mpr ⟨?_, List.forall_mem_cons.mpr ⟨by decide, pad2c_ne_Z _⟩⟩
  refine List.forall_mem_append.mpr ⟨?_, List.forall_mem_cons.mpr ⟨by decide, pad2c_ne_Z _⟩⟩
  exact pad4c_ne_Z _

theorem flatten_map_singleton (l : List Char) (hne : ∀ c ∈ l, ¬ c = 'Z') :
    ((l.map (fun c => if c == 'Z' then ['+', '0', '0', ':', '0', '0'] else [c])).flatten) = l := by
  induction l with
  | nil => rfl
  | cons c cs ih =>
    have hc : (c == 'Z') = false := by simpa using hne c (by simp)
    simp only [List.map_cons, List.flatten_cons, hc, Bool.false_eq_true, if_false]
    rw [ih (fun x hx => hne x (by simp [hx]))]
    rfl

theorem replaceZ_isoformat (dt : PyDateTime) : replaceZ (isoformat dt) = isoformat dt := by
  unfold replaceZ isoformat
  show String.mk (((isoChars dt).map _).flatten) = _
  rw [flatten_map_singleton (isoChars dt) (isoChars_ne_Z dt)]


theorem parseTz_bound (l : List Char) (tz : Option Int) (h : parseTz l = some tz) :
    ∀ off : Int, tz = some off → off.natAbs ≤ 1439 := by
  intro off hoff
  unfold parseTz at h
  split at h
  · cases h; cases hoff
  · simp only [] at h
    split at h
    case isTrue hguard =>
      split at h
      case isTrue hbound =>
        cases h
        cases hoff
        simp only [Bool.and_eq_true, decide_eq_true_eq] at hbound
        split
        · simp only [Int.natAbs_neg, Int.natAbs_ofNat]
          omega
        · simp only [Int.natAbs_ofNat]
          omega
      case isFalse _ => cases h
    case isFalse _ => cases h
  · cases h

theorem parseSec_tz_bound (l : List Char) (r : Nat × Option Int) (h : parseSec l = some r) :
    ∀ off : Int, r.2 = some off → off.natAbs ≤ 1439 := by
  intro off hoff
  unfold parseSec at h
  split at h
  · split at h
    case isTrue hg =>
      split at h
      · cases h
        exact parseTz_bound _ _ (by assumption) off hoff
      · cases h
    case isFalse _ => cases h
  · split at h
    · cases h
      exact parseTz_bound _ _ (by assumption) off hoff
    · cases h

theorem parseTime_tz_bound (l : List Char) (r : Nat × Nat × Nat × Option Int)
    (h : parseTime l = some r) : ∀ off : Int, r.2.2.2 = some off → off.natAbs ≤ 1439 := by
  intro off hoff
  unfold parseTime at h
  split at h
  · cases h
    exact absurd hoff (by simp)
  · split at h
    case isTrue hg =>
      split at h
      · cases h
        exact parseSec_tz_bound _ _ (by assumption) off hoff
      · cases h
    case isFalse _ => cases h
  · cases h

theorem fromisoformat_bounds (s : String) (dt : PyDateTime) (h : fromisoformat s = some dt) :
    1 ≤ dt.year ∧ dt.year ≤ 9999 ∧ 1 ≤ dt.month ∧ dt.month ≤ 12 ∧ 1 ≤ dt.day ∧
      dt.day ≤ daysInMonth dt.year dt.month ∧ dt.hour ≤ 23 ∧ dt.minute ≤ 59 ∧
      dt.second ≤ 59 ∧ ∀ off : Int, dt.tzOffsetMin = some off → off.natAbs ≤ 1439 := by
  unfold fromisoformat fromChars at h
  split at h
  · rename_i y1 y2 y3 y4 mo1 mo2 da1 da2 rest heq
    split at h
    case isTrue hdig =>
      simp only [] at h
      split at h
      case isTrue hval =>
        split at h
        · split at h
          case isTrue hhms =>
            cases h
            simp only [Bool.and_eq_true, decide_eq_true_eq] at hdig hval hhms
            obtain ⟨⟨⟨⟨⟨⟨⟨hd1, hd2⟩, hd3⟩, hd4⟩, _⟩, _⟩, _⟩, _⟩ := hdig
            obtain ⟨⟨⟨⟨h1y, h1mo⟩, h2mo⟩, h1da⟩, h2da⟩ := hval
            have hv1 := dVal_le_of_isDig y1 hd1
            have hv2 := dVal_le_of_isDig y2 hd2
            have hv3 := dVal_le_of_isDig y3 hd3
            have hv4 := dVal_le_of_isDig y4 hd4
            dsimp only
            refine ⟨h1y, by omega, h1mo, h2mo, h1da, h2da, hhms.1.1, hhms.1.2, hhms.2, ?_⟩
            intro off hoff
            exact parseTime_tz_bound _ _ (by assumption) off hoff
          case isFalse _ => cases h
        · cases h
      case isFalse _ => cases h
    case isFalse _ => cases h
  · cases h

theorem fromisoformat_roundtrip (s : String) (dt : PyDateTime)
    (h : fromisoformat s = some dt) :
    fromisoformat (replaceZ (isoformat dt)) = some dt := by
  rw [replaceZ_isoformat]
  obtain ⟨hy1, hy2, hmo1, hmo2, hda1, hda2, hho, hmi, hss, htz⟩ := fromisoformat_bounds s dt h
  show fromChars (isoChars dt) = some dt
  exact fromChars_isoChars dt hy1 hy2 hmo1 hmo2 hda1 hda2 hho hmi hss htz


theorem filter_map_replace_head {α : Type} (key : α → String) (p : α → Bool) (b : α)
    (hpb : p b = true) :
    ∀ l : List α, l.any (fun x => key x == key b) = true → (∀ x ∈ l, p x = false) →
      ∃ tl, ((l.map (fun x => if key x = key b then b else x)).filter p) = b :: tl := by
  intro l
  induction l with
  | nil => intro h; simp at h
  | cons x xs ih =>
    intro hany hl
    by_cases hq : key x = key b
    · rw [List.map_cons, show (if key x = key b then b else x) = b from if_pos hq,
        List.filter_cons_of_pos hpb]
      exact ⟨_, rfl⟩
    · have hx : p x = false := hl x (by simp)
      have hany2 : xs.any (fun x => key x == key b) = true := by
        simp only [List.any_cons] at hany
        rcases Bool.or_eq_true_iff.mp hany with h | h
        · exact absurd (by simpa using h) hq
        · exact h
      rw [List.map_cons, show (if key x = key b then b else x) = x from if_neg hq,
        List.filter_cons_of_neg (by simp [hx])]
      exact ih hany2 (fun y hy => hl y (by simp [hy]))

theorem filter_putList_head {α : Type} (key : α → String) (p : α → Bool) (b : α)
    (hpb : p b = true) (l : List α) (hl : ∀ x ∈ l, p x = false) :
    ∃ tl, (putList key l b).filter p = b :: tl := by
  unfold putList
  split
  case isTrue hany => exact filter_map_replace_head key p b hpb l hany hl
  case isFalse hany =>
    rw [List.filter_append]
    rw [show l.filter p = [] from List.filter_eq_nil_iff.mpr (fun a ha => by simp [hl a ha])]
    refine ⟨[], ?_⟩
    simp [List.filter, hpb]

/-- C8 (amended): for an identity with no prior bookings, create-booking with a
parseable slot and a tradesperson present in the store stores the ISO-8601
normalized slot, and a subsequent get-latest-booking for that identity returns
200 with the created booking id, the tradesperson name, and the normalized
slot rendered in the "YYYY-MM-DD HH:MM:SS" form the handler emits. -/
theorem C8_amended (identity tpid tpname slot : String) (ps : Params) (st : Store) (now : Now)
    (dt : PyDateTime) (tp : TradesPerson)
    (hps_tp : pget ps "tradesPersonId" = some tpid)
    (hps_slot : pget ps "slot" = some slot)
    (hparse : fromisoformat (replaceZ slot) = some dt)
    (hnone : ∀ b ∈ st.bookings, ¬ b.customerId = some identity)
    (htp : getTradesPerson st tpid = some tp)
    (hname : tp.name = some tpname) :
    create_booking identity ps now st =
      (Except.ok (JVal.obj [("statusCode", JVal.n 200),
        ("body", JVal.obj [
          ("message", JVal.s "Booking created successfully"),
          ("bookingId", JVal.s ("b" ++ (toString now.ts).takeRight 5)),
          ("tradesPersonName", JVal.s tpname),
          ("slot", JVal.s slot),
          ("description", optS (pget ps "description"))])]),
       putBooking st ⟨"b" ++ (toString now.ts).takeRight 5, some tpid, some identity,
         some (isoformat dt), pget ps "description"⟩) ∧
    get_latest_booking identity (putBooking st ⟨"b" ++ (toString now.ts).takeRight 5,
        some tpid, some identity, some (isoformat dt), pget ps "description"⟩) =
      (Except.ok (JVal.obj [("statusCode", JVal.n 200),
        ("body", JVal.obj [("booking", JVal.obj [
          ("bookingId", JVal.s ("b" ++ (toString now.ts).takeRight 5)),
          ("tradesPersonName", JVal.s tpname),
          ("tradesPersonTrade", JVal.s (tp.trade.getD "Unknown")),
          ("bookingDateTime", JVal.s (fmtYmdHms dt)),
          ("description", optS (pget ps "description"))])])]),
       putBooking st ⟨"b" ++ (toString now.ts).takeRight 5, some tpid, some identity,
         some (isoformat dt), pget ps "description"⟩) := by
  constructor
  · simp only [create_booking, hps_slot, hparse, hps_tp]
    rw [show getTradesPerson (putBooking st ⟨"b" ++ (toString now.ts).takeRight 5, some tpid,
      some identity, some (isoformat dt), pget ps "description"⟩) tpid = some tp from htp]
    simp [tpNameD, hname]
  · obtain ⟨tl, htl⟩ := filter_putList_head Booking.bookingId
      (fun b => b.customerId == some identity)
      ⟨"b" ++ (toString now.ts).takeRight 5, some tpid, some identity,
        some (isoformat dt), pget ps "description"⟩
      (by simp) st.bookings (fun x hx => by simpa using hnone x hx)
    have hq : customerQuery (putBooking st ⟨"b" ++ (toString now.ts).takeRight 5, some tpid,
        some identity, some (isoformat dt), pget ps "description"⟩) identity =
        ⟨"b" ++ (toString now.ts).takeRight 5, some tpid, some identity,
          some (isoformat dt), pget ps "description"⟩ :: tl := htl
    simp only [get_latest_booking, hq]
    rw [show getTradesPerson (putBooking st ⟨"b" ++ (toString now.ts).takeRight 5, some tpid,
      some identity, some (isoformat dt), pget ps "description"⟩) tpid = some tp from htp]
    rw [fromisoformat_roundtrip (replaceZ slot) dt hparse]
    simp [tpNameD, tpTradeD, hname]


/-- Counterexample to C8 as stated: identity 555 already holds booking b90000
(slot 2025-01-05T09:00:00); after create-booking stores a new booking with
slot 2025-06-02T10:00:00, get-latest-booking returns the OLD booking b90000
and its January date, not the created booking or its slot in any rendering. -/
theorem C8_counterexample :
    (handler evLatestC8 nowT (handler evCreateC8 nowT stC8).2).1.response.httpStatusCode
      = JVal.n 200 ∧
    (handler evLatestC8 nowT (handler evCreateC8 nowT stC8).2).1.response.responseBody
      = JVal.obj [("application/json", JVal.obj [("body", JVal.obj [("booking", JVal.obj [
          ("bookingId", JVal.s "b90000"),
          ("tradesPersonName", JVal.s "Bob"),
          ("tradesPersonTrade", JVal.s "plumber"),
          ("bookingDateTime", JVal.s "2025-01-05 09:00:00"),
          ("description", JVal.s "old job")])])])] ∧
    pget (postParams evCreateC8) "slot" = some "2025-06-02T10:00:00" ∧
    ("2025-01-05 09:00:00" : String) ≠ "2025-06-02 10:00:00" ∧
    ("b90000" : String) ≠ "b" ++ (toString nowT.ts).takeRight 5 :=
  ⟨rfl, rfl, rfl, by decide, by decide⟩

/-- Witness for the amended C8: in a store with no bookings, create then
get-latest returns the created booking with its normalized slot rendering. -/
theorem C8_witness :
    pget [("tradesPersonId", "tp1"), ("slot", "2025-06-02T10:00:00"), ("description", "tap")]
        "tradesPersonId" = some "tp1" ∧
    fromisoformat (replaceZ "2025-06-02T10:00:00") = some ⟨2025, 6, 2, 10, 0, 0, none⟩ ∧
    getTradesPerson stA8 "tp1" = some tpBob ∧
    get_latest_booking "555" (putBooking stA8 ⟨"b00000", some "tp1",
        some "555", some "2025-06-02T10:00:00", some "tap"⟩) =
      (Except.ok (JVal.obj [("statusCode", JVal.n 200),
        ("body", JVal.obj [("booking", JVal.obj [
          ("bookingId", JVal.s "b00000"),
          ("tradesPersonName", JVal.s "Bob"),
          ("tradesPersonTrade", JVal.s "plumber"),
          ("bookingDateTime", JVal.s "2025-06-02 10:00:00"),
          ("description", JVal.s "tap")])])]),
       putBooking stA8 ⟨"b00000", some "tp1", some "555",
         some "2025-06-02T10:00:00", some "tap"⟩) :=
  ⟨rfl, rfl, rfl,
    (C8_amended "555" "tp1" "Bob" "2025-06-02T10:00:00"
      [("tradesPersonId", "tp1"), ("slot", "2025-06-02T10:00:00"), ("description", "tap")]
      stA8 nowT ⟨2025, 6, 2, 10, 0, 0, none⟩ tpBob rfl rfl rfl
      (by intro b hb; cases hb) rfl rfl).2⟩


theorem contains_map_slot (l : List Booking) (s : String) :
    (l.map Booking.slot).contains (some s) = true ↔ ∃ b ∈ l, b.slot = some s := by
  rw [List.contains_iff_exists_mem_beq]
  constructor
  · rintro ⟨x, hx, hbeq⟩
    obtain ⟨b, hb, hbs⟩ := List.mem_map.mp hx
    refine ⟨b, hb, ?_⟩
    rw [hbs]
    have : some s = x := by simpa using hbeq
    exact this.symm
  · rintro ⟨b, hb, hbs⟩
    exact ⟨some s, List.mem_map.mpr ⟨b, hb, hbs⟩, by simp⟩

/-- C1: for every parsed check-availability request, the ok result is exactly
the whole-hour complement list, and a candidate instant (the start slot with
its hour replaced by i in [start_hour, end_hour)) is in the list iff it is not
string-equal to the slot of some booking returned by the
tradesperson/slot-range query. -/
theorem C1_check_availability_complement (ps : Params) (st : Store)
    (tpid startS endS : String) (dtS dtE : PyDateTime)
    (h1 : pget ps "startSlot" = some startS) (h2 : pget ps "endSlot" = some endS)
    (h3 : pget ps "tradesPersonId" = some tpid)
    (h4 : fromisoformat (replaceZ startS) = some dtS)
    (h5 : fromisoformat (replaceZ endS) = some dtE) :
    check_availability ps st =
      (Except.ok (JVal.obj [("statusCode", JVal.n 200),
        ("body", JVal.obj [("availableTimeSlots", JVal.arr
          ((((List.range' dtS.hour (dtE.hour - dtS.hour)).map
              (fun i => isoformat (replaceHour dtS i))).filter
            (fun slot => !(((availabilityQuery st tpid startS endS).map Booking.slot).contains
              (some slot)))).map JVal.s))])]), st) ∧
    ∀ s : String,
      s ∈ ((List.range' dtS.hour (dtE.hour - dtS.hour)).map
            (fun i => isoformat (replaceHour dtS i))).filter
          (fun slot => !(((availabilityQuery st tpid startS endS).map Booking.slot).contains
            (some slot)))
        ↔ ((∃ i : Nat, dtS.hour ≤ i ∧ i < dtE.hour ∧ s = isoformat (replaceHour dtS i)) ∧
           ¬ ∃ b ∈ availabilityQuery st tpid startS endS, b.slot = some s) := by
  constructor
  · simp only [check_availability, h1, h4, h2, h5, h3]
  · intro s
    constructor
    · intro hs
      obtain ⟨hsl, hp⟩ := List.mem_filter.mp hs
      obtain ⟨i, hir, hieq⟩ := List.mem_map.mp hsl
      obtain ⟨j, hj, hj2⟩ := List.mem_range'.mp hir
      have hpc : ¬ (((availabilityQuery st tpid startS endS).map Booking.slot).contains
          (some s) = true) := by
        subst hieq
        simpa using hp
      refine ⟨⟨i, by omega, by omega, hieq.symm⟩, ?_⟩
      rintro ⟨b, hb, hbs⟩
      exact hpc ((contains_map_slot _ _).mpr ⟨b, hb, hbs⟩)
    · rintro ⟨⟨i, hge, hlt, rfl⟩, hnb⟩
      refine List.mem_filter.mpr ⟨List.mem_map.mpr
        ⟨i, List.mem_range'.mpr ⟨i - dtS.hour, by omega, by omega⟩, rfl⟩, ?_⟩
      cases hcon : ((availabilityQuery st tpid startS endS).map Booking.slot).contains
          (some (isoformat (replaceHour dtS i))) with
      | true => exact absurd ((contains_map_slot _ _).mp hcon) hnb
      | false => simp [hcon]

/-- Witness for C1: with bookings at hours 9 and 11 for tp1 and the queried
range 09:00 to 12:00, the available list contains only the 10:00 instant. -/
theorem C1_witness :
    pget psC1 "startSlot" = some "2025-05-01T09:00:00" ∧
    pget psC1 "endSlot" = some "2025-05-01T12:00:00" ∧
    pget psC1 "tradesPersonId" = some "tp1" ∧
    fromisoformat (replaceZ "2025-05-01T09:00:00") = some ⟨2025, 5, 1, 9, 0, 0, none⟩ ∧
    check_availability psC1 stC1 =
      (Except.ok (JVal.obj [("statusCode", JVal.n 200),
        ("body", JVal.obj [("availableTimeSlots",
          JVal.arr [JVal.s "2025-05-01T10:00:00"])])]), stC1) :=
  ⟨rfl, rfl, rfl, rfl,
    ((C1_check_availability_complement psC1 stC1 "tp1" "2025-05-01T09:00:00"
      "2025-05-01T12:00:00" ⟨2025, 5, 1, 9, 0, 0, none⟩ ⟨2025, 5, 1, 12, 0, 0, none⟩
      rfl rfl rfl rfl rfl).1).trans (by rfl)⟩

/-- C6: for an identity never registered, get-customer-details answers 404;
after register-customer stores (name Jane, city Austin) for that identity, a
subsequent get-customer-details answers 200 with the matching record, and the
prompt-session-attributes of that response gain customerName Jane and
customerCity Austin. -/
theorem C6_register_then_get (identity : String) (st : Store) (now : Now)
    (h : findCustomer st identity = none) :
    (handler (evGetDetails identity) now st).1.response.httpStatusCode = JVal.n 404 ∧
    ((handler (evGetDetails identity) now
        (handler (evRegisterJane identity) now st).2).1.response.httpStatusCode = JVal.n 200 ∧
     (handler (evGetDetails identity) now
        (handler (evRegisterJane identity) now st).2).1.response.responseBody
       = JVal.obj [("application/json", JVal.obj [("body", JVal.obj [("customer",
           JVal.obj [("customerId", JVal.s identity), ("name", JVal.s "Jane"),
             ("city", JVal.s "Austin")])])])] ∧
     alGet (handler (evGetDetails identity) now
        (handler (evRegisterJane identity) now st).2).1.promptSessionAttributes "customerName"
       = some (JVal.s "Jane") ∧
     alGet (handler (evGetDetails identity) now
        (handler (evRegisterJane identity) now st).2).1.promptSessionAttributes "customerCity"
       = some (JVal.s "Austin")) := by
  have hroute1 : routeResult (evGetDetails identity) now st =
      (Except.ok (JVal.obj [("statusCode", JVal.n 404),
        ("body", JVal.obj [("error", JVal.s "Customer not found")])], JVal.n 404, []), st) := by
    unfold routeResult get_customer_details
    rw [show custId (evGetDetails identity) = identity from rfl, h]
    rfl
  have hreg : routeResult (evRegisterJane identity) now st =
      (Except.ok (JVal.obj [("statusCode", JVal.n 200),
        ("body", JVal.obj [
          ("message", JVal.s "Customer registered successfully"),
          ("name", JVal.s "Jane"), ("city", JVal.s "Austin")])], JVal.n 200,
        [("customerName", JVal.s "Jane"), ("customerCity", JVal.s "Austin")]),
       putCustomer st ⟨identity, some "Jane", some "Austin"⟩) := rfl
  have hst2 : (handler (evRegisterJane identity) now st).2
      = putCustomer st ⟨identity, some "Jane", some "Austin"⟩ := by
    unfold handler
    rw [hreg]
  have hfind2 : findCustomer (putCustomer st ⟨identity, some "Jane", some "Austin"⟩) identity
      = some ⟨identity, some "Jane", some "Austin"⟩ :=
    findCustomer_putCustomer st ⟨identity, some "Jane", some "Austin"⟩
  have hroute2 : routeResult (evGetDetails identity) now
      (putCustomer st ⟨identity, some "Jane", some "Austin"⟩) =
      (Except.ok (JVal.obj [("statusCode", JVal.n 200),
        ("body", JVal.obj [("customer", JVal.obj [("customerId", JVal.s identity),
          ("name", JVal.s "Jane"), ("city", JVal.s "Austin")])])], JVal.n 200,
        [("customerName", JVal.s "Jane"), ("customerCity", JVal.s "Austin")]),
       putCustomer st ⟨identity, some "Jane", some "Austin"⟩) := by
    unfold routeResult get_customer_details
    rw [show custId (evGetDetails identity) = identity from rfl, hfind2]
    rfl
  refine ⟨?_, ?_, ?_, ?_, ?_⟩
  · unfold handler
    rw [hroute1]
  · rw [hst2]
    unfold handler
    rw [hroute2]
  · rw [hst2]
    unfold handler
    rw [hroute2]
    rfl
  · rw [hst2]
    unfold handler
    rw [hroute2]
    rfl
  · rw [hst2]
    unfold handler
    rw [hroute2]
    rfl

/-- Witness for C6: in the empty store, identity 555 is 404 before and 200
with Jane/Austin after registration, with the prompt attributes gained. -/
theorem C6_witness :
    findCustomer st0 "555" = none ∧
    ((handler (evGetDetails "555") nowT st0).1.response.httpStatusCode = JVal.n 404 ∧
     (handler (evGetDetails "555") nowT
        (handler (evRegisterJane "555") nowT st0).2).1.response.httpStatusCode = JVal.n 200 ∧
     alGet (handler (evGetDetails "555") nowT
        (handler (evRegisterJane "555") nowT st0).2).1.promptSessionAttributes "customerName"
       = some (JVal.s "Jane")) :=
  ⟨rfl,
    (C6_register_then_get "555" st0 nowT rfl).1,
    (C6_register_then_get "555" st0 nowT rfl).2.1,
    (C6_register_then_get "555" st0 nowT rfl).2.2.2.1⟩

/-- Witness for C4: the unknown path /foo yields the 400 unsupported-operation
result and leaves the store unchanged. -/
theorem C4_witness :
    "/foo" ∉ knownPaths ∧
    ((handler evUnknown nowT stOwn).1.response.httpStatusCode = JVal.n 400 ∧
     (handler evUnknown nowT stOwn).1.response.responseBody
       = JVal.obj [("application/json", JVal.obj [("body",
           JVal.obj [("error", JVal.s "Unsupported operation: /foo")])])] ∧
     (handler evUnknown nowT stOwn).2 = stOwn) :=
  ⟨by decide, ((C4_unknown_operation evUnknown nowT stOwn "/foo" rfl (by decide)).2)⟩

end ConnectAgent
